import Mathlib

/-!
Verification development for the two adapter tools in
`src/.agents/tools/permissions.js`: a permission-management adapter
(JavaScript, `executePermissionsTool` and its `main`) and a terminal
multiplexer adapter (zsh, `run_tmux_command` and its `main`).

Both adapters are shallowly embedded as pure functions that produce a
trace of observable events (subprocess spawns, stdout/stderr prints,
sleeps) together with an exit status.  External subprocess behaviour is
abstracted by an oracle mapping each spawn request to its result.
-/

namespace PermTool

/-- Result of a completed external subprocess: captured stdout, captured
stderr, and the exit code delivered to the close handler. -/
structure SubResult where
  stdout : String
  stderr : String
  exitCode : Int
deriving Repr, DecidableEq

/-- Observable events of the permission adapter: a subprocess spawn
(program, argument vector, optional content written to its stdin),
a `console.log` line, and a `console.error` line. -/
inductive Event where
  | spawn (prog : String) (argv : List String) (stdinContent : Option String)
  | out (s : String)
  | err (s : String)
deriving Repr, DecidableEq

/-- The environment's answer to a spawn request: either the subprocess
result (the close handler fires) or a spawn error message (the error
handler fires, rejecting the promise). -/
abbrev Oracle := String → List String → Option String → Except String SubResult

def isSpawn : Event → Bool
  | .spawn _ _ _ => true
  | _ => false

def isOut : Event → Bool
  | .out _ => true
  | _ => false

def isErr : Event → Bool
  | .err _ => true
  | _ => false

/-- `settingsFile.replace(/^~/, process.env.HOME)`: replace a leading
tilde by the home directory. -/
def expandHome (home s : String) : String :=
  if s.startsWith "~" then home ++ s.drop 1 else s

/-- The `if (settingsFile)` guard plus flag construction shared by
`runAmpCommand` and `runAmpCommandWithStdin`: a missing or empty
`settingsFile` is falsy and contributes no flag. -/
def settingsFlags (home : String) : Option String → List String
  | none => []
  | some f => if f = "" then [] else ["--settings-file", expandHome home f]

/-- `ampArgs` as built in both runner functions:
optional settings flag, then `permissions`, the subcommand, and `args`. -/
def ampArgv (home : String) (settingsFile : Option String) (subcommand : String)
    (args : List String) : List String :=
  settingsFlags home settingsFile ++ ["permissions", subcommand] ++ args

/-- `runAmpCommand`: spawn `amp` with stdin ignored; on the error event
the promise rejects with a wrapped message, on close it resolves with
the captured result.  Returns the spawn event and the promise outcome. -/
def runAmpCommand (o : Oracle) (home : String) (settingsFile : Option String)
    (subcommand : String) (args : List String) : Event × Except String SubResult :=
  let argv := ampArgv home settingsFile subcommand args
  (.spawn "amp" argv none,
   match o "amp" argv none with
   | .ok r => .ok r
   | .error e => .error ("Failed to execute amp command: " ++ e))

/-- `runAmpCommandWithStdin`: like `runAmpCommand` but the content is
written to the subprocess's stdin, which is then closed; the `edit`
caller passes no extra argv (its `args` parameter defaults to `[]`). -/
def runAmpCommandWithStdin (o : Oracle) (home : String) (settingsFile : Option String)
    (subcommand : String) (stdinContent : String) (args : List String) :
    Event × Except String SubResult :=
  let argv := ampArgv home settingsFile subcommand args
  (.spawn "amp" argv (some stdinContent),
   match o "amp" argv (some stdinContent) with
   | .ok r => .ok r
   | .error e => .error ("Failed to execute amp command: " ++ e))

/-- The `amp permissions` usage text block printed by `explain` and
embedded in the tool description. -/
def PERMISSION_INSTRUCTIONS : String :=
  "YAAAYYYY Permission Rules Reference:\n- First matching rule wins\n- Arguments are matched exactly unless wildcards (*) are present\n- Use /regex/ syntax for regular expression matching\n- Available actions: allow, reject, ask, delegate\n\nExamples:\n  allow Bash --cmd 'ls*'\n  reject Bash --cmd '*rm -rf*'\n  allow mcp__atlassian__jira_fetch_issue --issue_key \"TEST*\"\n  ask mcp__atlassian__jira_fetch_issue\n  ask '*'\n  delegate --to amp-permission-helper '*'\n\nTest examples:\n  amp permissions test Bash --cmd 'ls*'\n  amp permissions test mcp__atlassian__jira_fetch_issue --issue_key \"TEST*\"\n\nFull reference: https://ampcode.com/manual/appendix#permissions-reference"

/-- The conditional `console.error(result.stderr)` after each successful
external call: printed only when `result.stderr` is truthy (non-empty). -/
def stderrEvents (r : SubResult) : List Event :=
  if r.stderr ≠ "" then [.err r.stderr] else []

/-- The body of the `switch (action)` in `executePermissionsTool`,
returning the events emitted before any throw together with the thrown
error message, if any.  The `switch` compares `action` against each case
label in order. -/
def execBranch (o : Oracle) (home : String) (settingsFile : Option String)
    (action : String) (args : List String) : List Event × Option String :=
  if action = "explain" then
    let (ev, res) := runAmpCommand o home settingsFile "list" []
    match res with
    | .error e => ([ev], some e)
    | .ok r =>
        ([ev, .out "Current permissions:", .out r.stdout,
          .out "\nPermission System Explanation:",
          .out "These permissions control which tools Amp can use and how.",
          .out "Key points:",
          .out "- Rules are evaluated in order - FIRST MATCHING RULE WINS",
          .out "- Arguments are matched exactly unless wildcards (*) are present",
          .out "- Use /regex/ syntax for regular expression matching",
          .out "- Available actions: allow, reject, ask, delegate",
          .out "",
          .out PERMISSION_INSTRUCTIONS], none)
  else if action = "test" then
    if args.length = 0 then
      ([], some "test action requires at least one argument (tool name)")
    else
      let (ev, res) := runAmpCommand o home settingsFile "test" args
      match res with
      | .error e => ([ev], some e)
      | .ok r =>
          ([ev, .out r.stdout] ++ stderrEvents r ++
            (if r.exitCode ≠ 0 then
              [.out ("\nNote: Permission test returned exit code " ++ toString r.exitCode)]
             else []), none)
  else if action = "add" then
    if args.length = 0 then
      ([], some "add action requires at least one argument (permission rule)")
    else
      let (ev, res) := runAmpCommand o home settingsFile "add" args
      match res with
      | .error e => ([ev], some e)
      | .ok r => ([ev, .out r.stdout] ++ stderrEvents r, none)
  else if action = "edit" then
    if args.length = 0 then
      ([], some "edit action requires at least one argument (permission rule)")
    else
      let rulesContent := String.intercalate "\n" args
      let pre := Event.out ("Replacing all permissions with " ++ toString args.length ++ " rule(s)...")
      let (ev, res) := runAmpCommandWithStdin o home settingsFile "edit" rulesContent []
      match res with
      | .error e => ([pre, ev], some e)
      | .ok r => ([pre, ev, .out r.stdout] ++ stderrEvents r, none)
  else
    ([], some ("Unknown action: " ++ action ++ ". Valid actions are: explain, test, add, edit"))

/-- `executePermissionsTool`: run the action switch inside try/catch; on
a caught error print `Error: <message>` to stderr and exit with status 1,
otherwise finish normally (process exit status 0). -/
def executePermissionsTool (o : Oracle) (home : String) (settingsFile : Option String)
    (action : String) (args : List String) : List Event × Int :=
  match execBranch o home settingsFile action args with
  | (evs, none) => (evs, 0)
  | (evs, some m) => (evs ++ [.err ("Error: " ++ m)], 1)

/-- The fixed JSON value `getToolSchema()` returns, modelled as a small
JSON tree (object fields keep insertion order, matching serialization). -/
inductive Json where
  | str (s : String)
  | arr (xs : List Json)
  | obj (fields : List (String × Json))
deriving Repr

/-- JSON string escaping as performed by `JSON.stringify` on the
characters that occur in the schema's strings. -/
def escapeJsonChar (c : Char) : String :=
  if c = '"' then "\\\""
  else if c = '\\' then "\\\\"
  else if c = '\n' then "\\n"
  else if c = '\t' then "\\t"
  else if c = '\r' then "\\r"
  else String.singleton c

def escapeJsonString (s : String) : String :=
  String.join (s.data.map escapeJsonChar)

def jsonSpaces (n : Nat) : String :=
  String.mk (List.replicate n ' ')

mutual
/-- `JSON.stringify(v, null, 2)` rendering at indentation level `n`. -/
def renderJson (n : Nat) : Json → String
  | .str s => "\"" ++ escapeJsonString s ++ "\""
  | .arr xs =>
      match xs with
      | [] => "[]"
      | _ => "[\n" ++ String.intercalate ",\n" (renderItems (n + 2) xs)
              ++ "\n" ++ jsonSpaces n ++ "]"
  | .obj fs =>
      match fs with
      | [] => "\x7b\x7d"
      | _ => "\x7b\n" ++ String.intercalate ",\n" (renderFields (n + 2) fs)
              ++ "\n" ++ jsonSpaces n ++ "\x7d"

def renderItems (n : Nat) : List Json → List String
  | [] => []
  | j :: js => (jsonSpaces n ++ renderJson n j) :: renderItems n js

def renderFields (n : Nat) : List (String × Json) → List String
  | [] => []
  | (k, v) :: fs =>
      (jsonSpaces n ++ "\"" ++ escapeJsonString k ++ "\": " ++ renderJson n v)
        :: renderFields n fs
end

/-- `getToolSchema()`: the fixed descriptor object with name,
description and input schema. -/
def getToolSchema : Json :=
  .obj
    [("name", .str "permissions"),
     ("description", .str
       ("Manage Amp tool permissions. ALWAYS use this tool whenever the user wants to ask about, test, or modify tool permissions. DO NOT use other tools like Bash or edit_file to modify permissions - editing permissions MUST be done with this tool only. Attempting to edit settings files directly to modify permissions WILL FAIL. "
        ++ PERMISSION_INSTRUCTIONS
        ++ "\n\nWARNING: The 'edit' action will OVERWRITE all existing permissions. To preserve existing rules, list them first before adding new ones.")),
     ("inputSchema", .obj
       [("type", .str "object"),
        ("properties", .obj
          [("settingsFile", .obj
            [("type", .str "string"),
             ("description", .str "Optional path to settings file. If not provided, uses default settings file. Set this to VS Code settings file when user asks about VS Code settings")]),
           ("action", .obj
            [("type", .str "string"),
             ("enum", .arr [.str "explain", .str "test", .str "add", .str "edit"]),
             ("description", .str "Action to perform: 'explain' lists and explains current permissions, 'test' tests a permission rule, 'add' adds a new permission rule, 'edit' replaces all permissions with provided rules (OVERWRITES existing rules)")]),
           ("args", .obj
            [("type", .str "array"),
             ("items", .obj [("type", .str "string")]),
             ("default", .arr []),
             ("description", .str "Arguments for the permission command. For edit action: each arg is a permission rule in text format (e.g., \"allow Bash --cmd 'ls*'\"). For test/add actions: tool name and parameters.")])]),
        ("required", .arr [.str "action"])])]

/-- First key names of a JSON object, in order. -/
def jsonKeys : Json → List String
  | .obj fs => fs.map Prod.fst
  | _ => []

/-- The diagnostic the runtime prints for the uncaught
`ERR_INVALID_ARG_TYPE` exception raised by the describe branch's spawn
call (the exact wording is runtime-specific; the model only relies on
its presence on the error stream). -/
def describeSpawnTypeError : String :=
  "TypeError [ERR_INVALID_ARG_TYPE]: The \"args\" argument must be of type object. Received type string ('holaaaa')"

/-- The `describe` branch of the permission tool's `main`: it logs the
pretty-printed schema, then calls `spawn('touch', 'holaaaa', ...)` with
a string — not an array — as the args parameter.  The runtime's spawn
argument normalization rejects a string args with
`ERR_INVALID_ARG_TYPE` synchronously, outside any try/catch, so no
child process is ever started: the uncaught exception is reported on
the error stream and the process exits with a failure status instead of
falling through normally. -/
def mainPermDescribe : List Event × Int :=
  ([.out (renderJson 0 getToolSchema), .err describeSpawnTypeError], 1)

end PermTool

namespace TmuxTool

/-- Result of one tmux client invocation: captured stdout and exit code. -/
structure TmuxResult where
  stdout : String
  exitCode : Int
deriving Repr, DecidableEq

/-- The environment's answer to each tmux client invocation, keyed by
the full argument vector handed to the `tmux` binary. -/
abbrev TmuxOracle := List String → TmuxResult

/-- Observable events of the multiplexer adapter: a tmux client call
(with its full argument vector), a stdout print, a stderr print, and a
sleep of the given number of milliseconds. -/
inductive TEvent where
  | tmux (argv : List String)
  | out (s : String)
  | err (s : String)
  | sleepMs (n : Nat)
deriving Repr, DecidableEq

/-- `tmux_cmd=(tmux -f /dev/null -L amp)`: the fixed prefix selecting
the isolated server (label `amp`, no config file). -/
def tmuxServerArgs : List String := ["-f", "/dev/null", "-L", "amp"]

/-- Argument vector of a call made through `"${tmux_cmd[@]}"`. -/
def tcall (rest : List String) : List String := tmuxServerArgs ++ rest

/-- Characters after the last `'/'` of the list (the whole list when no
slash occurs): the accumulator restarts at each slash. -/
def lastSegAux : List Char → List Char → List Char
  | [], acc => acc.reverse
  | c :: cs, acc => if c = '/' then lastSegAux cs [] else lastSegAux cs (c :: acc)

/-- `${PWD##*/}`: the substring after the final slash (the whole string
when no slash occurs). -/
def lastPathSegment (p : String) : String :=
  String.mk (lastSegAux p.data [])

/-- Command substitution `$(...)` strips trailing newlines from the
captured output. -/
def stripTrailingNewlines (s : String) : String :=
  String.mk ((s.data.reverse.dropWhile (· = '\n')).reverse)

/-- Subcommand of a tmux call event (the word after the fixed server
prefix), if the event is a tmux call. -/
def tmuxSubOf : TEvent → Option String
  | .tmux argv => (argv.drop 4).head?
  | _ => none

def isNewSession (e : TEvent) : Bool := tmuxSubOf e = some "new-session"

def isNewWindow (e : TEvent) : Bool := tmuxSubOf e = some "new-window"

def isSendKeys (e : TEvent) : Bool := tmuxSubOf e = some "send-keys"

def isCapturePane (e : TEvent) : Bool := tmuxSubOf e = some "capture-pane"

/-- The `send-keys` loop body: for each key, one discrete send-keys call
to the target followed by `sleep 0.1` (100 ms). -/
def sendKeysLoop (target : String) : List String → List TEvent
  | [] => []
  | k :: ks =>
      .tmux (tcall ["send-keys", "-t", target, k]) :: .sleepMs 100
        :: sendKeysLoop target ks

/-- The `case "$action"` dispatch of `run_tmux_command`, run after the
session-ensure step.  Returns the emitted events and the exit status of
the branch (the status of its last command; `printf` succeeds). -/
def dispatchAction (o : TmuxOracle) (pwd sessionName action : String)
    (args : List String) : List TEvent × Int :=
  if action = "info" then
    let a := tcall ["list-sessions"]
    ([.out "Server socket: amp\n", .out "Connect with: tmux -L amp\n", .tmux a],
     (o a).exitCode)
  else if action = "list-windows" then
    let a := tcall ["list-windows", "-t", sessionName, "-F", "#{window_index}: #{window_name}"]
    ([.tmux a], (o a).exitCode)
  else if action = "run-shell" then
    let command := (args.head?).getD ""
    let nwArgv := tcall ["new-window", "-t", sessionName, "-c", pwd, "-P", "-F", "#{window_index}"]
    let windowId := stripTrailingNewlines (o nwArgv).stdout
    ([.tmux nwArgv,
      .tmux (tcall ["send-keys", "-t", sessionName ++ ":" ++ windowId, command, "Enter"]),
      .out ("Started command in window " ++ windowId ++ "\n")], 0)
  else if action = "capture-output" then
    let target := match args.head? with
      | some t => if t = "" then sessionName else t
      | none => sessionName
    let a := tcall ["capture-pane", "-t", target, "-p"]
    ([.tmux a], (o a).exitCode)
  else if action = "send-keys" then
    let target := (args.head?).getD ""
    (sendKeysLoop target args.tail, 0)
  else if action = "run-raw-commands" then
    let a := tcall args
    ([.tmux a], (o a).exitCode)
  else
    ([.err ("Unknown action: " ++ action ++ "\n")], 1)

/-- `run_tmux_command`: derive the session name from the working
directory, ensure the session exists on the isolated server (`has-session`
probe, and a detached `new-session -c "$PWD"` when the probe fails), then
dispatch the action. -/
def run_tmux_command (o : TmuxOracle) (pwd action : String) (args : List String) :
    List TEvent × Int :=
  let sessionName := lastPathSegment pwd
  let hasArgv := tcall ["has-session", "-t", sessionName]
  let ensure : List TEvent :=
    if (o hasArgv).exitCode ≠ 0 then
      [.tmux hasArgv, .tmux (tcall ["new-session", "-d", "-s", sessionName, "-c", pwd])]
    else [.tmux hasArgv]
  (ensure ++ (dispatchAction o pwd sessionName action args).1,
   (dispatchAction o pwd sessionName action args).2)

/-- Checks that every send-keys call in an event list is immediately
followed by a 100 ms sleep. -/
def pausesAfterSends : List TEvent → Bool
  | [] => true
  | e :: rest =>
      if isSendKeys e then
        match rest with
        | .sleepMs 100 :: _ => pausesAfterSends rest
        | _ => false
      else pausesAfterSends rest

/-- The `execute` branch of the multiplexer tool's `main`: `target`
(empty string when the request omits it, via `.target // empty`) is
prepended to `args` only for `capture-output` and `send-keys`, and only
when non-empty; every request then goes through `run_tmux_command`. -/
def mainTmuxExecute (o : TmuxOracle) (pwd action : String) (target : Option String)
    (args : List String) : List TEvent × Int :=
  let t := target.getD ""
  if (action = "capture-output" ∨ action = "send-keys") ∧ t ≠ "" then
    run_tmux_command o pwd action (t :: args)
  else
    run_tmux_command o pwd action args

lemma tmuxSubOf_tcall (xs : List String) :
    tmuxSubOf (.tmux (tcall xs)) = xs.head? := rfl

lemma isNewSession_tcall (xs : List String) :
    isNewSession (.tmux (tcall xs)) = decide (xs.head? = some "new-session") := rfl

lemma isSendKeys_tcall (xs : List String) :
    isSendKeys (.tmux (tcall xs)) = decide (xs.head? = some "send-keys") := rfl

lemma isNewWindow_tcall (xs : List String) :
    isNewWindow (.tmux (tcall xs)) = decide (xs.head? = some "new-window") := rfl

lemma isCapturePane_tcall (xs : List String) :
    isCapturePane (.tmux (tcall xs)) = decide (xs.head? = some "capture-pane") := rfl

lemma isNewWindow_out (s : String) : isNewWindow (.out s) = false := rfl

lemma isSendKeys_out (s : String) : isSendKeys (.out s) = false := rfl

lemma sendKeysLoop_filter_isSendKeys (t : String) (ks : List String) :
    (sendKeysLoop t ks).filter isSendKeys
      = ks.map (fun k => TEvent.tmux (tcall ["send-keys", "-t", t, k])) := by
  induction ks with
  | nil => rfl
  | cons k ks ih =>
      simp [sendKeysLoop, List.filter_cons, isSendKeys, tmuxSubOf, tcall, tmuxServerArgs, ih]

lemma sendKeysLoop_filter_isNewSession (t : String) (ks : List String) :
    (sendKeysLoop t ks).filter isNewSession = [] := by
  induction ks with
  | nil => rfl
  | cons k ks ih =>
      simp [sendKeysLoop, List.filter_cons, isNewSession, tmuxSubOf, tcall, tmuxServerArgs, ih]

lemma pausesAfterSends_sendKeysLoop (t : String) (ks : List String) :
    pausesAfterSends (sendKeysLoop t ks) = true := by
  induction ks with
  | nil => rfl
  | cons k ks ih =>
      simp [sendKeysLoop, pausesAfterSends, isSendKeys, tmuxSubOf, tcall, tmuxServerArgs, ih]

lemma pausesAfterSends_append (l1 l2 : List TEvent)
    (h1 : ∀ e ∈ l1, isSendKeys e = false) (h2 : pausesAfterSends l2 = true) :
    pausesAfterSends (l1 ++ l2) = true := by
  induction l1 with
  | nil => simpa using h2
  | cons e l1 ih =>
      have he : isSendKeys e = false := h1 e (by simp)
      simp only [List.cons_append, pausesAfterSends, he, Bool.false_eq_true, if_false]
      exact ih fun x hx => h1 x (by simp [hx])

/-- The trace of `run_tmux_command` is the session-ensure prefix
followed by the action dispatch's events. -/
lemma run_tmux_trace (o : TmuxOracle) (pwd action : String) (args : List String) :
    (run_tmux_command o pwd action args).1
      = (if (o (tcall ["has-session", "-t", lastPathSegment pwd])).exitCode ≠ 0 then
           [TEvent.tmux (tcall ["has-session", "-t", lastPathSegment pwd]),
            TEvent.tmux (tcall ["new-session", "-d", "-s", lastPathSegment pwd, "-c", pwd])]
         else [TEvent.tmux (tcall ["has-session", "-t", lastPathSegment pwd])])
        ++ (dispatchAction o pwd (lastPathSegment pwd) action args).1 := rfl

lemma pausesAfterSends_cons (e : TEvent) (l : List TEvent)
    (he : isSendKeys e = false) (hl : pausesAfterSends l = true) :
    pausesAfterSends (e :: l) = true := by
  simp [pausesAfterSends, he, hl]

/-- The action dispatch itself never issues a session-create call,
except through the raw escape hatch when the caller explicitly passes
`new-session` as the first raw argument. -/
lemma dispatchAction_filter_isNewSession (o : TmuxOracle) (pwd sn action : String)
    (args : List String)
    (h : ¬(action = "run-raw-commands" ∧ args.head? = some "new-session")) :
    (dispatchAction o pwd sn action args).1.filter isNewSession = [] := by
  unfold dispatchAction
  split_ifs with h1 h2 h3 h4 h5 h6
  · simp [isNewSession, tmuxSubOf, tcall, tmuxServerArgs]
  · simp [isNewSession, tmuxSubOf, tcall, tmuxServerArgs]
  · simp [isNewSession, tmuxSubOf, tcall, tmuxServerArgs]
  · simp [isNewSession, tmuxSubOf, tcall, tmuxServerArgs]
  · simp [sendKeysLoop_filter_isNewSession]
  · have hh : ¬(args.head? = some "new-session") := fun hh => h ⟨h6, hh⟩
    simp [isNewSession, tmuxSubOf, tcall, tmuxServerArgs, hh]
  · simp [isNewSession, tmuxSubOf]

end TmuxTool

open PermTool TmuxTool

/-- Concrete oracle for witnesses: every spawn succeeds with empty
output and exit code 0. -/
def permOkOracle : PermTool.Oracle := fun _ _ _ => Except.ok ⟨"", "", 0⟩

/-- Concrete oracle for witnesses: every spawn succeeds with some
output, some stderr, and exit code 2. -/
def permNonzeroOracle : PermTool.Oracle := fun _ _ _ => Except.ok ⟨"out", "warn", 2⟩

/-- Concrete tmux oracle for witnesses: every call exits 1 (in
particular any `has-session` probe fails). -/
def tmuxAbsentOracle : TmuxTool.TmuxOracle := fun _ => ⟨"2\n", 1⟩

/-- Concrete tmux oracle for witnesses: every call exits 0 (in
particular any `has-session` probe succeeds). -/
def tmuxPresentOracle : TmuxTool.TmuxOracle := fun _ => ⟨"2\n", 0⟩

/-- C1: in execute mode, each of the actions `test`, `add` and `edit`
invoked with an empty args list fails locally: the adapter prints an
`Error: <message>` diagnostic on the error stream, exits with status 1,
and spawns no subprocess. -/
theorem C1_empty_args_fail_locally (o : PermTool.Oracle) (home : String)
    (sf : Option String) (a : String) (h : a = "test" ∨ a = "add" ∨ a = "edit") :
    (executePermissionsTool o home sf a []).2 = 1 ∧
    (executePermissionsTool o home sf a []).1.filter isSpawn = [] ∧
    ∃ m, (executePermissionsTool o home sf a []).1 = [Event.err ("Error: " ++ m)] := by
  rcases h with h | h | h <;> subst h
  · exact ⟨by simp [executePermissionsTool, execBranch],
      by simp [executePermissionsTool, execBranch, isSpawn],
      "test action requires at least one argument (tool name)",
      by simp [executePermissionsTool, execBranch]⟩
  · exact ⟨by simp [executePermissionsTool, execBranch],
      by simp [executePermissionsTool, execBranch, isSpawn],
      "add action requires at least one argument (permission rule)",
      by simp [executePermissionsTool, execBranch]⟩
  · exact ⟨by simp [executePermissionsTool, execBranch],
      by simp [executePermissionsTool, execBranch, isSpawn],
      "edit action requires at least one argument (permission rule)",
      by simp [executePermissionsTool, execBranch]⟩

/-- Witness for C1 at the concrete action `edit`. -/
theorem C1_empty_args_fail_locally_witness :
    (executePermissionsTool permOkOracle ("/home/u") none ("edit") []).2 = 1 ∧
    (executePermissionsTool permOkOracle ("/home/u") none ("edit") []).1.filter isSpawn = [] ∧
    ∃ m, (executePermissionsTool permOkOracle ("/home/u") none ("edit") []).1
        = [Event.err ("Error: " ++ m)] :=
  C1_empty_args_fail_locally permOkOracle ("/home/u") none ("edit") (Or.inr (Or.inr rfl))

/-- C2: for every non-empty args list, the `edit` action first prints
the preflight notice reporting the number of rules, then performs
exactly one spawn, of the external CLI's `edit` subcommand, feeding the
newline-join of all args on the subprocess's stdin and passing none of
them as argv. -/
theorem C2_edit_feeds_joined_rules_on_stdin (o : PermTool.Oracle) (home : String)
    (sf : Option String) (args : List String) (h : args ≠ []) :
    (executePermissionsTool o home sf ("edit") args).1.take 2
      = [Event.out ("Replacing all permissions with " ++ toString args.length ++ " rule(s)..."),
         Event.spawn ("amp") (ampArgv home sf ("edit") [])
           (some (String.intercalate ("\n") args))] ∧
    (executePermissionsTool o home sf ("edit") args).1.filter isSpawn
      = [Event.spawn ("amp") (ampArgv home sf ("edit") [])
          (some (String.intercalate ("\n") args))] := by
  have hl : ¬(args.length = 0) := by simpa [List.length_eq_zero] using h
  cases ho : o ("amp") (ampArgv home sf ("edit") []) (some (String.intercalate ("\n") args)) with
  | ok r =>
      constructor
      · simp [executePermissionsTool, execBranch, runAmpCommandWithStdin, hl, ho, stderrEvents]
      · simp only [executePermissionsTool, execBranch, runAmpCommandWithStdin, stderrEvents]
        simp [hl, ho, isSpawn, List.filter_append, apply_ite (List.filter isSpawn)]
  | error e =>
      constructor
      · simp [executePermissionsTool, execBranch, runAmpCommandWithStdin, hl, ho]
      · simp [executePermissionsTool, execBranch, runAmpCommandWithStdin, hl, ho, isSpawn]

/-- Witness for C2 at the spec's concrete example input. -/
theorem C2_edit_feeds_joined_rules_on_stdin_witness :
    (executePermissionsTool permOkOracle ("/home/u") none ("edit")
        ["allow Bash --cmd 'ls*'", "reject Bash --cmd '*rm -rf*'"]).1.take 2
      = [Event.out ("Replacing all permissions with 2 rule(s)..."),
         Event.spawn ("amp") ["permissions", "edit"]
           (some ("allow Bash --cmd 'ls*'\nreject Bash --cmd '*rm -rf*'"))] ∧
    (executePermissionsTool permOkOracle ("/home/u") none ("edit")
        ["allow Bash --cmd 'ls*'", "reject Bash --cmd '*rm -rf*'"]).1.filter isSpawn
      = [Event.spawn ("amp") ["permissions", "edit"]
          (some ("allow Bash --cmd 'ls*'\nreject Bash --cmd '*rm -rf*'"))] :=
  C2_edit_feeds_joined_rules_on_stdin permOkOracle ("/home/u") none
    ["allow Bash --cmd 'ls*'", "reject Bash --cmd '*rm -rf*'"] (by decide)

/-- C4: a subprocess that runs but returns a non-zero exit code is not
an adapter error: for every action the adapter finishes with status 0
and relays the captured output, only `test` appends the informational
note with the code, and `explain` never fails due to the external exit
code. -/
theorem C4_external_nonzero_not_adapter_error (o : PermTool.Oracle) (home : String)
    (sf : Option String) (r : SubResult) (args : List String)
    (ho : ∀ p a s, o p a s = Except.ok r) (hr : r.exitCode ≠ 0) (ha : args ≠ []) :
    (executePermissionsTool o home sf ("explain") args).2 = 0 ∧
    executePermissionsTool o home sf ("test") args
      = ([Event.spawn ("amp") (ampArgv home sf ("test") args) none, Event.out r.stdout]
          ++ stderrEvents r
          ++ [Event.out ("\nNote: Permission test returned exit code " ++ toString r.exitCode)],
         0) ∧
    executePermissionsTool o home sf ("add") args
      = ([Event.spawn ("amp") (ampArgv home sf ("add") args) none, Event.out r.stdout]
          ++ stderrEvents r, 0) ∧
    executePermissionsTool o home sf ("edit") args
      = ([Event.out ("Replacing all permissions with " ++ toString args.length ++ " rule(s)..."),
          Event.spawn ("amp") (ampArgv home sf ("edit") []) (some (String.intercalate ("\n") args)),
          Event.out r.stdout] ++ stderrEvents r, 0) := by
  have hl : ¬(args.length = 0) := by simpa [List.length_eq_zero] using ha
  refine ⟨?_, ?_, ?_, ?_⟩ <;>
    simp [executePermissionsTool, execBranch, runAmpCommand, runAmpCommandWithStdin,
      ho, hl, hr]

/-- Witness for C4 at a concrete run whose subprocess exits 2. -/
theorem C4_external_nonzero_not_adapter_error_witness :
    (executePermissionsTool permNonzeroOracle ("/home/u") none ("explain") ["Bash"]).2 = 0 ∧
    executePermissionsTool permNonzeroOracle ("/home/u") none ("test") ["Bash"]
      = ([Event.spawn ("amp") ["permissions", "test", "Bash"] none, Event.out ("out"),
          Event.err ("warn"),
          Event.out ("\nNote: Permission test returned exit code 2")], 0) ∧
    executePermissionsTool permNonzeroOracle ("/home/u") none ("add") ["Bash"]
      = ([Event.spawn ("amp") ["permissions", "add", "Bash"] none, Event.out ("out"),
          Event.err ("warn")], 0) ∧
    executePermissionsTool permNonzeroOracle ("/home/u") none ("edit") ["Bash"]
      = ([Event.out ("Replacing all permissions with 1 rule(s)..."),
          Event.spawn ("amp") ["permissions", "edit"] (some ("Bash")),
          Event.out ("out"), Event.err ("warn")], 0) :=
  C4_external_nonzero_not_adapter_error permNonzeroOracle ("/home/u") none ⟨"out", "warn", 2⟩
    ["Bash"] (fun _ _ _ => rfl) (by decide) (by decide)

/-- C8: for either tool, an action value outside the tool's enumerated
set ends the invocation with status 1 and a diagnostic on the error
stream that names the invalid action. -/
theorem C8_unknown_action_fails (o : PermTool.Oracle) (home : String) (sf : Option String)
    (a : String) (args : List String) (o2 : TmuxTool.TmuxOracle) (pwd b : String)
    (tgt : Option String) (args2 : List String)
    (hA : a ≠ "explain" ∧ a ≠ "test" ∧ a ≠ "add" ∧ a ≠ "edit")
    (hB : b ≠ "info" ∧ b ≠ "list-windows" ∧ b ≠ "run-shell" ∧ b ≠ "capture-output"
          ∧ b ≠ "send-keys" ∧ b ≠ "run-raw-commands") :
    ((executePermissionsTool o home sf a args).2 = 1 ∧
     (executePermissionsTool o home sf a args).1
        = [Event.err ("Error: "
            ++ ("Unknown action: " ++ a ++ ". Valid actions are: explain, test, add, edit"))]) ∧
    ((mainTmuxExecute o2 pwd b tgt args2).2 = 1 ∧
     ∃ pre, (mainTmuxExecute o2 pwd b tgt args2).1
        = pre ++ [TEvent.err ("Unknown action: " ++ b ++ "\n")]) := by
  obtain ⟨ha1, ha2, ha3, ha4⟩ := hA
  obtain ⟨hb1, hb2, hb3, hb4, hb5, hb6⟩ := hB
  refine ⟨⟨?_, ?_⟩, ?_, ?_⟩
  · simp [executePermissionsTool, execBranch, ha1, ha2, ha3, ha4]
  · simp [executePermissionsTool, execBranch, ha1, ha2, ha3, ha4]
  · simp [mainTmuxExecute, run_tmux_command, dispatchAction, hb1, hb2, hb3, hb4, hb5, hb6]
  · have hd : (dispatchAction o2 pwd (lastPathSegment pwd) b args2).1
        = [TEvent.err ("Unknown action: " ++ b ++ "\n")] := by
      simp [dispatchAction, hb1, hb2, hb3, hb4, hb5, hb6]
    have hroute : (mainTmuxExecute o2 pwd b tgt args2).1
        = (run_tmux_command o2 pwd b args2).1 := by
      simp [mainTmuxExecute, hb4, hb5]
    rw [hroute]
    simp only [run_tmux_command, hd]
    exact ⟨_, rfl⟩

/-- Witness for C8 at the concrete unknown action `bogus` for both
tools. -/
theorem C8_unknown_action_fails_witness :
    ((executePermissionsTool permOkOracle ("/home/u") none ("bogus") []).2 = 1 ∧
     (executePermissionsTool permOkOracle ("/home/u") none ("bogus") []).1
        = [Event.err ("Error: "
            ++ ("Unknown action: " ++ "bogus" ++ ". Valid actions are: explain, test, add, edit"))]) ∧
    ((mainTmuxExecute tmuxPresentOracle ("/root/demo") ("bogus") none []).2 = 1 ∧
     ∃ pre, (mainTmuxExecute tmuxPresentOracle ("/root/demo") ("bogus") none []).1
        = pre ++ [TEvent.err ("Unknown action: " ++ "bogus" ++ "\n")]) :=
  C8_unknown_action_fails permOkOracle ("/home/u") none ("bogus") [] tmuxPresentOracle
    ("/root/demo") ("bogus") none [] (by decide) (by decide)

/-- C9: the claim's fire-and-forget spawn never happens.  In describe
mode the fixed schema JSON (an object with keys name, description,
inputSchema) is printed to standard output first, but the diagnostic
`spawn('touch', 'holaaaa', ...)` passes a string args parameter, which
the runtime rejects synchronously outside any try/catch: no subprocess
is spawned at all, the uncaught exception lands on the error stream,
and the process exits with a non-zero status instead of completing the
describe invocation cleanly. -/
theorem C9_describe_schema_then_spawn_crash :
    mainPermDescribe.1.filter isOut = [Event.out (renderJson 0 getToolSchema)] ∧
    mainPermDescribe.1.filter isSpawn = [] ∧
    mainPermDescribe.1.filter isErr ≠ [] ∧
    mainPermDescribe.2 ≠ 0 ∧
    jsonKeys getToolSchema = ["name", "description", "inputSchema"] :=
  ⟨rfl, rfl, by decide, by decide, rfl⟩

/-- C3: when the `has-session` probe for the session named after the
last path segment of the working directory fails on the isolated
server, exactly one session-create call (detached, with `-c` set to the
working directory) occurs, immediately after the probe and before the
action's own calls; when the probe succeeds, no create call occurs.
Excluded is only the raw escape hatch invoked with an explicit
`new-session` argument, which would add an action-owned create call. -/
theorem C3_session_resolution (o : TmuxTool.TmuxOracle) (pwd action : String)
    (args : List String)
    (h : ¬(action = "run-raw-commands" ∧ args.head? = some "new-session")) :
    ((o (tcall ["has-session", "-t", lastPathSegment pwd])).exitCode = 0 →
       (run_tmux_command o pwd action args).1.filter isNewSession = []) ∧
    ((o (tcall ["has-session", "-t", lastPathSegment pwd])).exitCode ≠ 0 →
       (run_tmux_command o pwd action args).1.filter isNewSession
         = [TEvent.tmux (tcall ["new-session", "-d", "-s", lastPathSegment pwd, "-c", pwd])] ∧
       (run_tmux_command o pwd action args).1.take 2
         = [TEvent.tmux (tcall ["has-session", "-t", lastPathSegment pwd]),
            TEvent.tmux (tcall ["new-session", "-d", "-s", lastPathSegment pwd, "-c", pwd])]) := by
  have hd := dispatchAction_filter_isNewSession o pwd (lastPathSegment pwd) action args h
  constructor
  · intro h0
    rw [run_tmux_trace, if_neg (by simpa using h0)]
    simp [List.filter_append, hd, isNewSession_tcall]
  · intro h0
    constructor
    · rw [run_tmux_trace, if_pos h0]
      simp [List.filter_append, hd, isNewSession_tcall]
    · rw [run_tmux_trace, if_pos h0]
      simp

/-- Witness for C3: with an absent session, `list-windows` in
`/root/demo` issues the probe and then exactly one detached create. -/
theorem C3_session_resolution_witness :
    (run_tmux_command tmuxAbsentOracle ("/root/demo") ("list-windows") []).1.filter isNewSession
      = [TEvent.tmux (tcall ["new-session", "-d", "-s", "demo", "-c", "/root/demo"])] ∧
    (run_tmux_command tmuxAbsentOracle ("/root/demo") ("list-windows") []).1.take 2
      = [TEvent.tmux (tcall ["has-session", "-t", "demo"]),
         TEvent.tmux (tcall ["new-session", "-d", "-s", "demo", "-c", "/root/demo"])] :=
  (C3_session_resolution tmuxAbsentOracle ("/root/demo") ("list-windows") [] (by decide)).2
    (by decide)

/-- The full argument vector of the `new-window` call made by the
`run-shell` branch. -/
def runShellNewWindowArgv (pwd : String) : List String :=
  tcall ["new-window", "-t", lastPathSegment pwd, "-c", pwd, "-P", "-F", "#{window_index}"]

/-- The window index reported by the `new-window` call, as captured by
the command substitution (trailing newlines stripped). -/
def runShellWindowId (o : TmuxTool.TmuxOracle) (pwd : String) : String :=
  stripTrailingNewlines (o (runShellNewWindowArgv pwd)).stdout

/-- C5: `run-shell` with a single command string creates exactly one new
window in the resolved session, sends exactly one key-send event
carrying the command text followed by an Enter keystroke to that
window, and reports the created window's index; the three steps happen
in that order after session resolution. -/
theorem C5_run_shell_one_window_one_send (o : TmuxTool.TmuxOracle) (pwd cmd : String) :
    ∃ pre,
      (run_tmux_command o pwd ("run-shell") [cmd]).1
        = pre ++ [TEvent.tmux (runShellNewWindowArgv pwd),
            TEvent.tmux (tcall ["send-keys", "-t",
              lastPathSegment pwd ++ ":" ++ runShellWindowId o pwd, cmd, "Enter"]),
            TEvent.out ("Started command in window " ++ runShellWindowId o pwd ++ "\n")] ∧
      pre.filter (fun e => isNewWindow e || isSendKeys e) = [] ∧
      (run_tmux_command o pwd ("run-shell") [cmd]).1.filter isNewWindow
        = [TEvent.tmux (runShellNewWindowArgv pwd)] ∧
      (run_tmux_command o pwd ("run-shell") [cmd]).1.filter isSendKeys
        = [TEvent.tmux (tcall ["send-keys", "-t",
            lastPathSegment pwd ++ ":" ++ runShellWindowId o pwd, cmd, "Enter"])] := by
  have hd5 : (dispatchAction o pwd (lastPathSegment pwd) ("run-shell") [cmd]).1
      = [TEvent.tmux (runShellNewWindowArgv pwd),
         TEvent.tmux (tcall ["send-keys", "-t",
           lastPathSegment pwd ++ ":" ++ runShellWindowId o pwd, cmd, "Enter"]),
         TEvent.out ("Started command in window " ++ runShellWindowId o pwd ++ "\n")] := by
    simp [dispatchAction, runShellNewWindowArgv, runShellWindowId]
  by_cases h0 : (o (tcall ["has-session", "-t", lastPathSegment pwd])).exitCode = 0
  · have hx : (run_tmux_command o pwd ("run-shell") [cmd]).1
        = [TEvent.tmux (tcall ["has-session", "-t", lastPathSegment pwd])]
          ++ (dispatchAction o pwd (lastPathSegment pwd) ("run-shell") [cmd]).1 := by
      rw [run_tmux_trace, if_neg (by simpa using h0)]
    refine ⟨[TEvent.tmux (tcall ["has-session", "-t", lastPathSegment pwd])], ?_, ?_, ?_, ?_⟩
    · rw [hx, hd5]
    · simp [isNewWindow_tcall, isSendKeys_tcall]
    · rw [hx, hd5]
      simp [List.filter_append, isNewWindow_tcall, isSendKeys_tcall, isNewWindow_out,
        isSendKeys_out, runShellNewWindowArgv]
    · rw [hx, hd5]
      simp [List.filter_append, isNewWindow_tcall, isSendKeys_tcall, isNewWindow_out,
        isSendKeys_out, runShellNewWindowArgv]
  · have hx : (run_tmux_command o pwd ("run-shell") [cmd]).1
        = [TEvent.tmux (tcall ["has-session", "-t", lastPathSegment pwd]),
           TEvent.tmux (tcall ["new-session", "-d", "-s", lastPathSegment pwd, "-c", pwd])]
          ++ (dispatchAction o pwd (lastPathSegment pwd) ("run-shell") [cmd]).1 := by
      rw [run_tmux_trace, if_pos h0]
    refine ⟨[TEvent.tmux (tcall ["has-session", "-t", lastPathSegment pwd]),
        TEvent.tmux (tcall ["new-session", "-d", "-s", lastPathSegment pwd, "-c", pwd])],
        ?_, ?_, ?_, ?_⟩
    · rw [hx, hd5]
    · simp [isNewWindow_tcall, isSendKeys_tcall]
    · rw [hx, hd5]
      simp [List.filter_append, isNewWindow_tcall, isSendKeys_tcall, isNewWindow_out,
        isSendKeys_out, runShellNewWindowArgv]
    · rw [hx, hd5]
      simp [List.filter_append, isNewWindow_tcall, isSendKeys_tcall, isNewWindow_out,
        isSendKeys_out, runShellNewWindowArgv]

/-- C6: `send-keys` with a target and any args list sends each element
of args as a discrete key-send event to that target, in the order of
the list, and every key-send event is immediately followed by a 100 ms
pause. -/
theorem C6_send_keys_order_and_pauses (o : TmuxTool.TmuxOracle) (pwd target : String)
    (keys : List String) (ht : target ≠ "") :
    (mainTmuxExecute o pwd ("send-keys") (some target) keys).1.filter isSendKeys
      = keys.map (fun k => TEvent.tmux (tcall ["send-keys", "-t", target, k])) ∧
    pausesAfterSends (mainTmuxExecute o pwd ("send-keys") (some target) keys).1 = true := by
  have hroute : mainTmuxExecute o pwd ("send-keys") (some target) keys
      = run_tmux_command o pwd ("send-keys") (target :: keys) := by
    simp [mainTmuxExecute, ht]
  have hdisp : (dispatchAction o pwd (lastPathSegment pwd) ("send-keys") (target :: keys)).1
      = sendKeysLoop target keys := by
    simp [dispatchAction]
  rw [hroute]
  constructor
  · by_cases h0 : (o (tcall ["has-session", "-t", lastPathSegment pwd])).exitCode = 0
    · rw [run_tmux_trace, if_neg (by simpa using h0), hdisp]
      simp [List.filter_append, sendKeysLoop_filter_isSendKeys, isSendKeys_tcall]
    · rw [run_tmux_trace, if_pos h0, hdisp]
      simp [List.filter_append, sendKeysLoop_filter_isSendKeys, isSendKeys_tcall]
  · by_cases h0 : (o (tcall ["has-session", "-t", lastPathSegment pwd])).exitCode = 0
    · have hx : (run_tmux_command o pwd ("send-keys") (target :: keys)).1
          = TEvent.tmux (tcall ["has-session", "-t", lastPathSegment pwd])
              :: sendKeysLoop target keys := by
        rw [run_tmux_trace, if_neg (by simpa using h0), hdisp]
        simp
      rw [hx]
      exact pausesAfterSends_cons _ _
        (by simp [isSendKeys_tcall])
        (pausesAfterSends_sendKeysLoop _ _)
    · have hx : (run_tmux_command o pwd ("send-keys") (target :: keys)).1
          = TEvent.tmux (tcall ["has-session", "-t", lastPathSegment pwd])
              :: TEvent.tmux (tcall ["new-session", "-d", "-s", lastPathSegment pwd, "-c", pwd])
              :: sendKeysLoop target keys := by
        rw [run_tmux_trace, if_pos h0, hdisp]
        simp
      rw [hx]
      exact pausesAfterSends_cons _ _
        (by simp [isSendKeys_tcall])
        (pausesAfterSends_cons _ _
          (by simp [isSendKeys_tcall])
          (pausesAfterSends_sendKeysLoop _ _))

/-- Witness for C6 at the spec's example keys a, b, c. -/
theorem C6_send_keys_order_and_pauses_witness :
    (mainTmuxExecute tmuxPresentOracle ("/root/demo") ("send-keys") (some ("demo:1.2"))
        ["a", "b", "c"]).1.filter isSendKeys
      = [("a" : String), "b", "c"].map
          (fun k => TEvent.tmux (tcall ["send-keys", "-t", "demo:1.2", k])) ∧
    pausesAfterSends (mainTmuxExecute tmuxPresentOracle ("/root/demo") ("send-keys")
        (some ("demo:1.2")) ["a", "b", "c"]).1 = true :=
  C6_send_keys_order_and_pauses tmuxPresentOracle ("/root/demo") ("demo:1.2")
    ["a", "b", "c"] (by decide)

/-- C7: `capture-output` with no target field captures using the bare
session name as its target; with a supplied non-empty target string,
that string is used verbatim as the capture target. -/
theorem C7_capture_output_target_default (o : TmuxTool.TmuxOracle) (pwd t : String)
    (ht : t ≠ "") :
    (mainTmuxExecute o pwd ("capture-output") none []).1.filter isCapturePane
      = [TEvent.tmux (tcall ["capture-pane", "-t", lastPathSegment pwd, "-p"])] ∧
    (mainTmuxExecute o pwd ("capture-output") (some t) []).1.filter isCapturePane
      = [TEvent.tmux (tcall ["capture-pane", "-t", t, "-p"])] := by
  constructor
  · have hm : (mainTmuxExecute o pwd ("capture-output") none []).1
        = (run_tmux_command o pwd ("capture-output") []).1 := by
      simp [mainTmuxExecute]
    have hd7 : (dispatchAction o pwd (lastPathSegment pwd) ("capture-output") []).1
        = [TEvent.tmux (tcall ["capture-pane", "-t", lastPathSegment pwd, "-p"])] := by
      simp [dispatchAction]
    rw [hm, run_tmux_trace, hd7]
    by_cases h0 : (o (tcall ["has-session", "-t", lastPathSegment pwd])).exitCode = 0
    · rw [if_neg (by simpa using h0)]
      simp [isCapturePane_tcall]
    · rw [if_pos h0]
      simp [isCapturePane_tcall]
  · have hm : (mainTmuxExecute o pwd ("capture-output") (some t) []).1
        = (run_tmux_command o pwd ("capture-output") [t]).1 := by
      simp [mainTmuxExecute, ht]
    have hd7 : (dispatchAction o pwd (lastPathSegment pwd) ("capture-output") [t]).1
        = [TEvent.tmux (tcall ["capture-pane", "-t", t, "-p"])] := by
      simp [dispatchAction, ht]
    rw [hm, run_tmux_trace, hd7]
    by_cases h0 : (o (tcall ["has-session", "-t", lastPathSegment pwd])).exitCode = 0
    · rw [if_neg (by simpa using h0)]
      simp [isCapturePane_tcall]
    · rw [if_pos h0]
      simp [isCapturePane_tcall]

/-- Witness for C7 at the spec's example target `foo:1.2`. -/
theorem C7_capture_output_target_default_witness :
    (mainTmuxExecute tmuxPresentOracle ("/root/demo") ("capture-output") none []).1.filter
        isCapturePane
      = [TEvent.tmux (tcall ["capture-pane", "-t", "demo", "-p"])] ∧
    (mainTmuxExecute tmuxPresentOracle ("/root/demo") ("capture-output")
        (some ("foo:1.2")) []).1.filter isCapturePane
      = [TEvent.tmux (tcall ["capture-pane", "-t", "foo:1.2", "-p"])] :=
  C7_capture_output_target_default tmuxPresentOracle ("/root/demo") ("foo:1.2") (by decide)

/-- C10: the session-existence check runs unconditionally before the
action dispatch for every action value routed through the multiplexer
tool's execute branch — send-keys and capture-output with explicit
targets and unknown actions included — and when the probe fails the
detached create immediately follows it, before anything else. -/
theorem C10_ensure_runs_for_every_action (o : TmuxTool.TmuxOracle) (pwd action : String)
    (target : Option String) (args : List String) :
    ((mainTmuxExecute o pwd action target args).1.head?
        = some (TEvent.tmux (tcall ["has-session", "-t", lastPathSegment pwd]))) ∧
    ((o (tcall ["has-session", "-t", lastPathSegment pwd])).exitCode ≠ 0 →
       (mainTmuxExecute o pwd action target args).1.take 2
         = [TEvent.tmux (tcall ["has-session", "-t", lastPathSegment pwd]),
            TEvent.tmux (tcall ["new-session", "-d", "-s", lastPathSegment pwd, "-c", pwd])]) := by
  have key : ∀ as : List String,
      ((run_tmux_command o pwd action as).1.head?
          = some (TEvent.tmux (tcall ["has-session", "-t", lastPathSegment pwd]))) ∧
      ((o (tcall ["has-session", "-t", lastPathSegment pwd])).exitCode ≠ 0 →
        (run_tmux_command o pwd action as).1.take 2
          = [TEvent.tmux (tcall ["has-session", "-t", lastPathSegment pwd]),
             TEvent.tmux (tcall ["new-session", "-d", "-s", lastPathSegment pwd, "-c", pwd])]) := by
    intro as
    constructor
    · rw [run_tmux_trace]
      by_cases h0 : (o (tcall ["has-session", "-t", lastPathSegment pwd])).exitCode = 0
      · rw [if_neg (by simpa using h0)]
        simp
      · rw [if_pos h0]
        simp
    · intro h0
      rw [run_tmux_trace, if_pos h0]
      simp
  simp only [mainTmuxExecute]
  split_ifs <;> exact key _

/-- Witness for C10 at an unknown action with an absent session: the
probe and the create still precede the failure. -/
theorem C10_ensure_runs_for_every_action_witness :
    ((mainTmuxExecute tmuxAbsentOracle ("/root/demo") ("frobnicate") none []).1.head?
        = some (TEvent.tmux (tcall ["has-session", "-t", "demo"]))) ∧
    (mainTmuxExecute tmuxAbsentOracle ("/root/demo") ("frobnicate") none []).1.take 2
      = [TEvent.tmux (tcall ["has-session", "-t", "demo"]),
         TEvent.tmux (tcall ["new-session", "-d", "-s", "demo", "-c", "/root/demo"])] :=
  ⟨(C10_ensure_runs_for_every_action tmuxAbsentOracle ("/root/demo") ("frobnicate") none []).1,
   (C10_ensure_runs_for_every_action tmuxAbsentOracle ("/root/demo") ("frobnicate") none []).2
     (by decide)⟩
